import Mathlib

/-
Verification development for the AI-Powered Job Interview Coach
repository.

The visible source is the presentation layer `app.py` (Streamlit UI).
The analysis pipeline that `app.py` calls, `process_interview_response`
from `ai_modules/nlp_processor.py`, is not among the visible sources,
so the pipeline is modelled from the specification (each such definition
says so in its doc comment).  The rubric-rendering portion of
`display_results` is embedded directly from `app.py`.
-/

namespace InterviewCoach

/-- Modelled from the spec: the sentiment label vocabulary of
SentimentResult (spec section 3); `ai_modules/nlp_processor.py` is missing
from the sources. -/
inductive SentimentLabel where
  | POSITIVE
  | NEUTRAL
  | NEGATIVE
  deriving DecidableEq, Repr

/-- Modelled from the spec: the three named pass/fail rubric booleans
(spec section 3, RubricResult); `ai_modules/nlp_processor.py` is missing
from the sources. -/
structure RubricResult where
  relevance : Bool
  clarity : Bool
  tone : Bool
  deriving DecidableEq, Repr

/-- Modelled from the spec: the three retained normalization stages
(spec section 3, NormalizedText), with the field names `display_results`
reads from `result["preprocessing_steps"]`. -/
structure PreprocessingSteps where
  lowercase : String
  no_fillers : String
  no_punctuation : String
  deriving DecidableEq, Repr

/-- Modelled from the spec: the aggregate immutable analysis record
(spec section 3, AnalysisResult), with the field names `display_results`
reads from the returned dict; `ai_modules/nlp_processor.py` is missing
from the sources. -/
structure AnalysisResult where
  original_response : String
  preprocessing_steps : PreprocessingSteps
  tokenized_words : List String
  lemmatized_words : List String
  cleaned_response : List String
  keywords : List String
  named_entities : List (String × String)
  sentiment_label : SentimentLabel
  sentiment_score : ℚ
  rubric : RubricResult
  overall_score : Nat
  deriving DecidableEq, Repr

/-- Modelled from the spec: the error taxonomy of spec section 7;
`ai_modules/nlp_processor.py` is missing from the sources. -/
inductive PipelineError where
  | inputError
  | modelUnavailableError
  | processingError
  deriving DecidableEq, Repr

/-- Modelled from the spec: the read-only model artifacts the pipeline
consults (spec sections 4.3, 4.5, 4.6, 4.7 and 9): a morphological lemma
table (partial, `none` on unknown tokens), a content part-of-speech
tagger, an entity tagger and a sentiment classifier. -/
structure Models where
  lemmaLookup : String → Option String
  contentPos : String → Bool
  entityTagger : String → List (String × String)
  sentimentClassifier : String → SentimentLabel × ℚ

/-- Modelled from the spec: the externalized configuration surface of
spec section 9 (filler list, stopword set, per-question topic keywords,
rubric thresholds). -/
structure Config where
  fillers : List String
  stopwords : List String
  topicKeywords : String → List String
  clarityMin : Nat
  clarityMax : Nat
  disfluencyThreshold : ℚ
  toneThreshold : ℚ

/-- Modelled from the spec: empty-or-whitespace-only test on the raw
response (spec sections 4.1 and 7, the Python `not s.strip()` guard in
`app.py` line 132). -/
def isBlank (s : String) : Bool :=
  s.data.all Char.isWhitespace

/-- Modelled from the spec: whitespace splitting into nonempty word
tokens (spec section 4.2), accumulator-based so it computes by structural
recursion. -/
def wordsAux : List Char → List Char → List String
  | [], acc => if acc.isEmpty then [] else [String.mk acc.reverse]
  | ch :: rest, acc =>
    if ch.isWhitespace then
      if acc.isEmpty then wordsAux rest []
      else String.mk acc.reverse :: wordsAux rest []
    else wordsAux rest (ch :: acc)

/-- Modelled from the spec: tokenizer contract `tokenize(normalized_text)
-> TokenSequence` (spec section 4.2); no token is the empty string. -/
def splitWords (s : String) : List String :=
  wordsAux s.data []

/-- Modelled from the spec: join words back with single spaces (the
whitespace collapse of spec section 4.1). -/
def joinWords : List String → String
  | [] => ""
  | [w] => w
  | w :: rest => w ++ " " ++ joinWords rest

/-- Modelled from the spec: full-string case fold (spec section 4.1). -/
def toLowercase (s : String) : String :=
  String.mk (s.data.map Char.toLower)

/-- Modelled from the spec: filler removal as whole-word matches with
whitespace collapsed to single spaces (spec section 4.1). -/
def removeFillers (fillers : List String) (s : String) : String :=
  joinWords ((splitWords s).filter (fun w => !(fillers.contains w)))

/-- Modelled from the spec: the punctuation characters stripped by the
normalizer (spec section 4.1); internal apostrophes are preserved, the
documented policy choice. -/
def punctChars : List Char :=
  [',', '.', '!', '?', ';', ':', '(', ')', '-']

/-- Modelled from the spec: punctuation removal preserving word and
whitespace boundaries (spec section 4.1). -/
def removePunct (s : String) : String :=
  String.mk (s.data.filter (fun c => !(punctChars.contains c)))

/-- Modelled from the spec: each token maps to its base form via the
morphological model, and tokens unknown to the model pass through
unchanged (identity fallback, spec section 4.3). -/
def applyLemma (m : Models) (t : String) : String :=
  (m.lemmaLookup t).getD t

/-- Modelled from the spec: proportion of filler words relative to the
original token count (the disfluency ratio of spec section 4.8). -/
def fillerFrac (c : Config) (lowered : String) : ℚ :=
  let ws := splitWords lowered
  if ws.length = 0 then 0
  else (((ws.filter (fun w => c.fillers.contains w)).length : ℚ) / (ws.length : ℚ))

/-- Modelled from the spec: the number of true rubric booleans, which is
the overall score (spec sections 3 and 4.8). -/
def countTrue (r : RubricResult) : Nat :=
  (if r.relevance then 1 else 0) + (if r.clarity then 1 else 0)
    + (if r.tone then 1 else 0)

/-- Modelled from the spec: the normalization chain producing the three
retained stages (spec section 4.1): lowercase, then filler removal, then
punctuation removal. -/
def normalize (c : Config) (response : String) : PreprocessingSteps :=
  let lowered := toLowercase response
  let noFillers := removeFillers c.fillers lowered
  { lowercase := lowered
    no_fillers := noFillers
    no_punctuation := removePunct noFillers }

/-- Modelled from the spec: tokenizer stage on the fully normalized text
(spec sections 2 and 4.2). -/
def tokenizeStage (c : Config) (response : String) : List String :=
  splitWords (normalize c response).no_punctuation

/-- Modelled from the spec: lemmatizer stage, one lemma per token, order
preserved (spec section 4.3). -/
def lemmatizeStage (m : Models) (c : Config) (response : String) : List String :=
  (tokenizeStage c response).map (applyLemma m)

/-- Modelled from the spec: stopword filter on the lemmatized sequence,
order and duplicates preserved (spec section 4.4). -/
def cleanStage (m : Models) (c : Config) (response : String) : List String :=
  (lemmatizeStage m c response).filter (fun l => !(c.stopwords.contains l))

/-- Modelled from the spec: keyword extractor over CleanedTokens; a token
is emitted when it matches the question's expected-topic set or is tagged
as a content part of speech, order and duplicates preserved (spec
section 4.5). -/
def keywordStage (m : Models) (c : Config) (response question : String) : List String :=
  (cleanStage m c response).filter
    (fun t => (c.topicKeywords question).contains t || m.contentPos t)

/-- Modelled from the spec: rubric evaluation (spec section 4.8):
relevance is topic-keyword overlap, clarity is the cleaned-token length
band plus the disfluency-ratio bound, tone is non-NEGATIVE label with
confidence at or above the configured threshold. -/
def evalRubric (m : Models) (c : Config) (response question : String) : RubricResult :=
  let cleaned := cleanStage m c response
  let sent := m.sentimentClassifier response
  { relevance := (keywordStage m c response question).any
        (fun k => (c.topicKeywords question).contains k)
    clarity := decide (c.clarityMin ≤ cleaned.length)
        && decide (cleaned.length ≤ c.clarityMax)
        && decide (fillerFrac c (toLowercase response) < c.disfluencyThreshold)
    tone := decide (sent.1 ≠ SentimentLabel.NEGATIVE)
        && decide (c.toneThreshold ≤ sent.2) }

/-- Modelled from the spec: the success path of the pipeline (spec
sections 2 and 4.1 to 4.9), assembling every intermediate artifact into
the AnalysisResult record (spec section 4.9, pure aggregation). -/
def analyze (m : Models) (c : Config) (response question : String) : AnalysisResult :=
  { original_response := response
    preprocessing_steps := normalize c response
    tokenized_words := tokenizeStage c response
    lemmatized_words := lemmatizeStage m c response
    cleaned_response := cleanStage m c response
    keywords := keywordStage m c response question
    named_entities := m.entityTagger response
    sentiment_label := (m.sentimentClassifier response).1
    sentiment_score := (m.sentimentClassifier response).2
    rubric := evalRubric m c response question
    overall_score := countTrue (evalRubric m c response question) }

/-- Modelled from the spec: the top-level pipeline contract
`process_interview_response(response_text, question_text) ->
AnalysisResult | InputError` (spec section 4.9); empty or whitespace-only
input short-circuits with InputError before any stage runs (spec
sections 4.1 and 7). -/
def process_interview_response (m : Models) (c : Config)
    (response question : String) : Except PipelineError AnalysisResult :=
  if isBlank response then Except.error PipelineError.inputError
  else Except.ok (analyze m c response question)

/-- Concrete deterministic model stub used to exercise the pipeline on
concrete inputs (spec section 9, model polymorphism: rule-based fallback
implementations are interchangeable with pretrained ones). -/
def testModels : Models :=
  { lemmaLookup := fun t => if t = "worked" then some "work" else none
    contentPos := fun _ => true
    entityTagger := fun _ => [("Google", "ORG")]
    sentimentClassifier := fun _ => (SentimentLabel.POSITIVE, 1) }

/-- Concrete configuration used to exercise the pipeline on concrete
inputs (spec section 9, configuration surface). -/
def testConfig : Config :=
  { fillers := ["umm", "uh"]
    stopwords := ["i", "at", "a", "the"]
    topicKeywords := fun _ => ["teamwork", "team"]
    clarityMin := 1
    clarityMax := 100
    disfluencyThreshold := 1/2
    toneThreshold := 1/2 }

/-- Sample candidate response used by the witnesses (spec section 8
scenario). -/
def respSample : String := "Umm I worked at teamwork."

/-- Sample interview question used by the witnesses (spec section 8
scenario). -/
def qSample : String := "Tell me about teamwork"

/-- Modelled from the spec: the structured human-readable exchange
format the presentation layer downloads verbatim (spec section 6;
`json.dumps` in app.py line 343). -/
inductive JValue where
  | jstr : String → JValue
  | jnum : ℚ → JValue
  | jbool : Bool → JValue
  | jarr : List JValue → JValue
  | jobj : List (String × JValue) → JValue

/-- Modelled from the spec: the serialized form of a sentiment label. -/
def labelToString : SentimentLabel → String
  | SentimentLabel.POSITIVE => "POSITIVE"
  | SentimentLabel.NEUTRAL => "NEUTRAL"
  | SentimentLabel.NEGATIVE => "NEGATIVE"

/-- Modelled from the spec: decoding of a serialized sentiment label. -/
def labelOfString (s : String) : Option SentimentLabel :=
  if s = "POSITIVE" then some SentimentLabel.POSITIVE
  else if s = "NEUTRAL" then some SentimentLabel.NEUTRAL
  else if s = "NEGATIVE" then some SentimentLabel.NEGATIVE
  else none

/-- Modelled from the spec: a list of strings as a JSON array. -/
def strListToJson (l : List String) : JValue :=
  JValue.jarr (l.map JValue.jstr)

/-- Modelled from the spec: decoding of a JSON array of strings. -/
def strsOfJson : List JValue → Option (List String)
  | [] => some []
  | JValue.jstr s :: rest => (strsOfJson rest).map (fun tl => s :: tl)
  | _ => none

/-- Modelled from the spec: the named-entity list as a JSON array of
two-element arrays, entity text then label (spec section 3). -/
def entsToJson (l : List (String × String)) : JValue :=
  JValue.jarr (l.map (fun p => JValue.jarr [JValue.jstr p.1, JValue.jstr p.2]))

/-- Modelled from the spec: decoding of a serialized named-entity list. -/
def entsOfJson : List JValue → Option (List (String × String))
  | [] => some []
  | JValue.jarr [JValue.jstr a, JValue.jstr b] :: rest =>
      (entsOfJson rest).map (fun tl => (a, b) :: tl)
  | _ => none

/-- Modelled from the spec: serialization of the AnalysisResult record
under the stable field names the presentation layer reads
(spec section 6; app.py lines 157 to 245 and 336 to 349). -/
def analysisResultToJson (r : AnalysisResult) : JValue :=
  JValue.jobj
    [("original_response", JValue.jstr r.original_response),
     ("preprocessing_steps", JValue.jobj
        [("lowercase", JValue.jstr r.preprocessing_steps.lowercase),
         ("no_fillers", JValue.jstr r.preprocessing_steps.no_fillers),
         ("no_punctuation", JValue.jstr r.preprocessing_steps.no_punctuation)]),
     ("tokenized_words", strListToJson r.tokenized_words),
     ("lemmatized_words", strListToJson r.lemmatized_words),
     ("cleaned_response", strListToJson r.cleaned_response),
     ("keywords", strListToJson r.keywords),
     ("named_entities", entsToJson r.named_entities),
     ("sentiment_label", JValue.jstr (labelToString r.sentiment_label)),
     ("sentiment_score", JValue.jnum r.sentiment_score),
     ("rubric", JValue.jobj
        [("relevance", JValue.jbool r.rubric.relevance),
         ("clarity", JValue.jbool r.rubric.clarity),
         ("tone", JValue.jbool r.rubric.tone)]),
     ("overall_score", JValue.jnum (r.overall_score : ℚ))]

/-- Modelled from the spec: decoding of a serialized AnalysisResult,
positional over the fixed field layout; `none` on any shape mismatch
(the field names themselves are checked by the topKeys equation). -/
def analysisResultOfJson : JValue → Option AnalysisResult
  | JValue.jobj
      [(_, JValue.jstr orig),
       (_, JValue.jobj
          [(_, JValue.jstr lc),
           (_, JValue.jstr nf),
           (_, JValue.jstr np)]),
       (_, JValue.jarr toks),
       (_, JValue.jarr lems),
       (_, JValue.jarr cls),
       (_, JValue.jarr kws),
       (_, JValue.jarr ents),
       (_, JValue.jstr lab),
       (_, JValue.jnum conf),
       (_, JValue.jobj
          [(_, JValue.jbool rv),
           (_, JValue.jbool cl),
           (_, JValue.jbool tn)]),
       (_, JValue.jnum osc)] =>
    match strsOfJson toks, strsOfJson lems, strsOfJson cls, strsOfJson kws,
        entsOfJson ents, labelOfString lab with
    | some toks2, some lems2, some cls2, some kws2, some ents2, some lab2 =>
      if osc.den = 1 ∧ 0 ≤ osc.num then
        some { original_response := orig
               preprocessing_steps :=
                 { lowercase := lc, no_fillers := nf, no_punctuation := np }
               tokenized_words := toks2
               lemmatized_words := lems2
               cleaned_response := cls2
               keywords := kws2
               named_entities := ents2
               sentiment_label := lab2
               sentiment_score := conf
               rubric := { relevance := rv, clarity := cl, tone := tn }
               overall_score := osc.num.toNat }
      else none
    | _, _, _, _, _, _ => none
  | _ => none

/-- Modelled from the spec: the top-level field names of a serialized
record, in order. -/
def topKeys : JValue → List String
  | JValue.jobj l => l.map Prod.fst
  | _ => []

/-- Embeds display_results (app.py lines 187 to 205): the exceptions the
rubric section can raise, a KeyError from a dict lookup or an IndexError
from indexing the three columns of st.columns(3). -/
inductive RenderError where
  | keyError
  | indexError
  deriving DecidableEq, Repr

/-- Embeds a Python dict lookup on an insertion-ordered dict: `none`
models a raised KeyError. -/
def dictGet {α : Type} (d : List (String × α)) (k : String) : Option α :=
  (d.find? (fun p => p.1 == k)).map Prod.snd

/-- Embeds display_results lines 190 to 194 (app.py): the rubric_colors
dict literal, mapping each criterion to "success" or "danger" from its
boolean. -/
def rubricColors (rv cl tn : Bool) : List (String × String) :=
  [("relevance", if rv then "success" else "danger"),
   ("clarity", if cl then "success" else "danger"),
   ("tone", if tn then "success" else "danger")]

/-- Embeds display_results lines 196 to 205 (app.py): the enumerate loop
over result["rubric"].items(); item i enters column rubric_cols[i]
(IndexError when i reaches 3, st.columns(3) having three columns) and
then reads rubric_colors[criterion] (KeyError when the criterion is not
a rubric_colors key); each rendered card is the criterion, its pass/fail
status and its colour class. -/
def renderRubricItems (colors : List (String × String)) :
    Nat → List (String × Bool) → Except RenderError (List (String × String × String))
  | _, [] => Except.ok []
  | i, (criterion, score) :: rest =>
    if i < 3 then
      match dictGet colors criterion with
      | some colorClass =>
        (renderRubricItems colors (i + 1) rest).map
          (fun tl => (criterion, if score then "Pass" else "Fail", colorClass) :: tl)
      | none => Except.error RenderError.keyError
    else Except.error RenderError.indexError

/-- Embeds display_results lines 187 to 205 (app.py): the rubric section
first builds rubric_colors by reading the keys relevance, clarity and
tone from result["rubric"] (a missing one raises KeyError), then renders
the items loop. -/
def display_rubric (rubric : List (String × Bool)) :
    Except RenderError (List (String × String × String)) :=
  match dictGet rubric "relevance", dictGet rubric "clarity", dictGet rubric "tone" with
  | some rv, some cl, some tn => renderRubricItems (rubricColors rv cl tn) 0 rubric
  | _, _, _ => Except.error RenderError.keyError

theorem process_ok_eq (m : Models) (c : Config) (r q : String) (res : AnalysisResult)
    (h : process_interview_response m c r q = Except.ok res) : res = analyze m c r q := by
  unfold process_interview_response at h
  split at h
  · cases h
  · exact (Except.ok.inj h).symm

theorem countTrue_le_three (r : RubricResult) : countTrue r ≤ 3 := by
  rcases r with ⟨a, b, t⟩
  cases a <;> cases b <;> cases t <;> decide

theorem label_cases (l : SentimentLabel) :
    l = SentimentLabel.POSITIVE ∨ l = SentimentLabel.NEUTRAL ∨ l = SentimentLabel.NEGATIVE := by
  cases l
  · exact Or.inl rfl
  · exact Or.inr (Or.inl rfl)
  · exact Or.inr (Or.inr rfl)

/-- C1: for every valid input pair, the overall_score field of the
returned AnalysisResult equals the number of true booleans among the
three rubric criteria relevance, clarity and tone, hence lies in
the range 0 to 3. -/
theorem overall_score_counts_rubric (m : Models) (c : Config) (r q : String)
    (res : AnalysisResult)
    (h : process_interview_response m c r q = Except.ok res) :
    res.overall_score = countTrue res.rubric ∧ res.overall_score ≤ 3 := by
  have hres := process_ok_eq m c r q res h
  subst hres
  exact ⟨rfl, countTrue_le_three _⟩

/-- Witness for C1 at a concrete model, configuration and input. -/
theorem overall_score_counts_rubric_witness :
    (analyze testModels testConfig respSample qSample).overall_score
        = countTrue (analyze testModels testConfig respSample qSample).rubric
      ∧ (analyze testModels testConfig respSample qSample).overall_score ≤ 3 :=
  overall_score_counts_rubric testModels testConfig respSample qSample
    (analyze testModels testConfig respSample qSample) rfl

/-- C2: for every response that is empty or whitespace-only and any
question, the pipeline returns an InputError outcome, producing no
AnalysisResult; the guard fires before any stage runs. -/
theorem blank_input_rejected (m : Models) (c : Config) (r q : String)
    (h : isBlank r = true) :
    process_interview_response m c r q = Except.error PipelineError.inputError := by
  unfold process_interview_response
  simp [h]

/-- Witness for C2 at a whitespace-only response. -/
theorem blank_input_rejected_witness :
    process_interview_response testModels testConfig "   " qSample
      = Except.error PipelineError.inputError :=
  blank_input_rejected testModels testConfig "   " qSample rfl

/-- C3: for every input, the pipeline returns a discriminated outcome:
either a complete AnalysisResult or an explicit error value naming one
of the kinds InputError, ModelUnavailableError, ProcessingError; it
never returns a partially filled record and never leaks a raw internal
exception. -/
theorem outcome_discriminated (m : Models) (c : Config) (r q : String) :
    (∃ res : AnalysisResult, process_interview_response m c r q = Except.ok res)
      ∨ (∃ e : PipelineError,
          process_interview_response m c r q = Except.error e
            ∧ (e = PipelineError.inputError ∨ e = PipelineError.modelUnavailableError
                ∨ e = PipelineError.processingError)) := by
  unfold process_interview_response
  split
  · exact Or.inr ⟨PipelineError.inputError, rfl, Or.inl rfl⟩
  · exact Or.inl ⟨analyze m c r q, rfl⟩

theorem strsOfJson_map (l : List String) :
    strsOfJson (l.map JValue.jstr) = some l := by
  induction l with
  | nil => rfl
  | cons a tl ih => simp [strsOfJson, ih]

theorem entsOfJson_map (l : List (String × String)) :
    entsOfJson (l.map (fun p => JValue.jarr [JValue.jstr p.1, JValue.jstr p.2]))
      = some l := by
  induction l with
  | nil => rfl
  | cons a tl ih => simp [entsOfJson, ih]

theorem labelOfString_toString (l : SentimentLabel) :
    labelOfString (labelToString l) = some l := by
  cases l <;> rfl

/-- C4: every successful result exposes, under stable field names, the
original response, the three normalization stages, tokens, lemmas,
cleaned tokens, keywords, named entities, sentiment label and
confidence, the rubric booleans and the overall score, and the record
serializes to the structured exchange format and decodes back without
loss. -/
theorem analysis_result_serializable (r : AnalysisResult) :
    analysisResultOfJson (analysisResultToJson r) = some r
      ∧ topKeys (analysisResultToJson r)
        = ["original_response", "preprocessing_steps", "tokenized_words",
           "lemmatized_words", "cleaned_response", "keywords", "named_entities",
           "sentiment_label", "sentiment_score", "rubric", "overall_score"] := by
  constructor
  · rcases r with ⟨orig, ⟨lc, nf, np⟩, toks, lems, cls, kws, ents, lab, conf, ⟨rv, cl, tn⟩, osc⟩
    simp [analysisResultToJson, analysisResultOfJson, strListToJson, entsToJson,
      strsOfJson_map, entsOfJson_map, labelOfString_toString,
      Rat.den_natCast, Rat.num_natCast, Int.toNat_natCast, Int.natCast_nonneg]
  · rfl

/-- C5: the lemma sequence has the same length as the token sequence and
preserves its order: the i-th lemma is the base form of the i-th token,
and a token unknown to the morphological model maps to itself. -/
theorem lemma_token_alignment (m : Models) (c : Config) (r q : String)
    (res : AnalysisResult)
    (h : process_interview_response m c r q = Except.ok res) :
    res.lemmatized_words.length = res.tokenized_words.length
      ∧ (∀ i : Nat, res.lemmatized_words[i]?
          = (res.tokenized_words[i]?).map (applyLemma m))
      ∧ (∀ t : String, m.lemmaLookup t = none → applyLemma m t = t) := by
  have hres := process_ok_eq m c r q res h
  subst hres
  refine ⟨?_, ?_, ?_⟩
  · show (lemmatizeStage m c r).length = (tokenizeStage c r).length
    unfold lemmatizeStage
    exact List.length_map _ _
  · intro i
    show (lemmatizeStage m c r)[i]? = ((tokenizeStage c r)[i]?).map (applyLemma m)
    unfold lemmatizeStage
    exact List.getElem?_map _ _ _
  · intro t ht
    unfold applyLemma
    rw [ht]
    rfl

/-- Witness for C5 at a concrete model, configuration and input. -/
theorem lemma_token_alignment_witness :
    (analyze testModels testConfig respSample qSample).lemmatized_words.length
        = (analyze testModels testConfig respSample qSample).tokenized_words.length
      ∧ (∀ i : Nat, (analyze testModels testConfig respSample qSample).lemmatized_words[i]?
          = ((analyze testModels testConfig respSample qSample).tokenized_words[i]?).map
              (applyLemma testModels))
      ∧ (∀ t : String, testModels.lemmaLookup t = none → applyLemma testModels t = t) :=
  lemma_token_alignment testModels testConfig respSample qSample
    (analyze testModels testConfig respSample qSample) rfl

/-- C6: every cleaned token is one of the lemmas, none is a stopword,
and the cleaned sequence is a subsequence of the lemma sequence
(order and duplicates preserved, not a set). -/
theorem cleaned_tokens_invariant (m : Models) (c : Config) (r q : String)
    (res : AnalysisResult)
    (h : process_interview_response m c r q = Except.ok res) :
    (∀ x ∈ res.cleaned_response, x ∈ res.lemmatized_words ∧ x ∉ c.stopwords)
      ∧ res.cleaned_response.Sublist res.lemmatized_words := by
  have hres := process_ok_eq m c r q res h
  subst hres
  constructor
  · intro x hx
    have hx2 : x ∈ (lemmatizeStage m c r).filter (fun l => !(c.stopwords.contains l)) := hx
    rw [List.mem_filter] at hx2
    refine ⟨hx2.1, ?_⟩
    have hb := hx2.2
    simp at hb
    exact hb
  · show (cleanStage m c r).Sublist (lemmatizeStage m c r)
    unfold cleanStage
    exact List.filter_sublist _

/-- Witness for C6 at a concrete model, configuration and input. -/
theorem cleaned_tokens_invariant_witness :
    (∀ x ∈ (analyze testModels testConfig respSample qSample).cleaned_response,
        x ∈ (analyze testModels testConfig respSample qSample).lemmatized_words
          ∧ x ∉ testConfig.stopwords)
      ∧ (analyze testModels testConfig respSample qSample).cleaned_response.Sublist
          (analyze testModels testConfig respSample qSample).lemmatized_words :=
  cleaned_tokens_invariant testModels testConfig respSample qSample
    (analyze testModels testConfig respSample qSample) rfl

/-- C7: every keyword is one of the cleaned tokens, and the keyword list
is a subsequence of the cleaned tokens (source order and duplicates
preserved, so frequency counts over it are meaningful). -/
theorem keywords_from_cleaned (m : Models) (c : Config) (r q : String)
    (res : AnalysisResult)
    (h : process_interview_response m c r q = Except.ok res) :
    (∀ x ∈ res.keywords, x ∈ res.cleaned_response)
      ∧ res.keywords.Sublist res.cleaned_response := by
  have hres := process_ok_eq m c r q res h
  subst hres
  constructor
  · intro x hx
    have hx2 : x ∈ (cleanStage m c r).filter
        (fun t => (c.topicKeywords q).contains t || m.contentPos t) := hx
    exact (List.mem_filter.mp hx2).1
  · show (keywordStage m c r q).Sublist (cleanStage m c r)
    unfold keywordStage
    exact List.filter_sublist _

/-- Witness for C7 at a concrete model, configuration and input. -/
theorem keywords_from_cleaned_witness :
    (∀ x ∈ (analyze testModels testConfig respSample qSample).keywords,
        x ∈ (analyze testModels testConfig respSample qSample).cleaned_response)
      ∧ (analyze testModels testConfig respSample qSample).keywords.Sublist
          (analyze testModels testConfig respSample qSample).cleaned_response :=
  keywords_from_cleaned testModels testConfig respSample qSample
    (analyze testModels testConfig respSample qSample) rfl

/-- C8: under the classifier contract that confidence is a probability,
every result's sentiment label is one of POSITIVE, NEUTRAL, NEGATIVE
and its confidence lies in the closed interval from 0 to 1. -/
theorem sentiment_within_bounds (m : Models) (c : Config) (r q : String)
    (res : AnalysisResult)
    (hconf : ∀ s : String,
      0 ≤ (m.sentimentClassifier s).2 ∧ (m.sentimentClassifier s).2 ≤ 1)
    (h : process_interview_response m c r q = Except.ok res) :
    (res.sentiment_label = SentimentLabel.POSITIVE
        ∨ res.sentiment_label = SentimentLabel.NEUTRAL
        ∨ res.sentiment_label = SentimentLabel.NEGATIVE)
      ∧ 0 ≤ res.sentiment_score ∧ res.sentiment_score ≤ 1 := by
  have hres := process_ok_eq m c r q res h
  subst hres
  exact ⟨label_cases _, (hconf r).1, (hconf r).2⟩

/-- Witness for C8 at a concrete model, configuration and input. -/
theorem sentiment_within_bounds_witness :
    ((analyze testModels testConfig respSample qSample).sentiment_label
          = SentimentLabel.POSITIVE
        ∨ (analyze testModels testConfig respSample qSample).sentiment_label
          = SentimentLabel.NEUTRAL
        ∨ (analyze testModels testConfig respSample qSample).sentiment_label
          = SentimentLabel.NEGATIVE)
      ∧ 0 ≤ (analyze testModels testConfig respSample qSample).sentiment_score
      ∧ (analyze testModels testConfig respSample qSample).sentiment_score ≤ 1 :=
  sentiment_within_bounds testModels testConfig respSample qSample
    (analyze testModels testConfig respSample qSample)
    (fun _ => ⟨zero_le_one, le_refl 1⟩) rfl

/-- C9: for fixed models and configuration the pipeline is
deterministic: two calls with identical response and question yield
identical AnalysisResult outcomes; the model is a pure function of its
arguments, with no hidden state from prior calls. -/
theorem pipeline_deterministic (m : Models) (c : Config) (r₁ q₁ r₂ q₂ : String)
    (hr : r₁ = r₂) (hq : q₁ = q₂) :
    process_interview_response m c r₁ q₁ = process_interview_response m c r₂ q₂ := by
  rw [hr, hq]

/-- Witness for C9 at a concrete model, configuration and input. -/
theorem pipeline_deterministic_witness :
    process_interview_response testModels testConfig respSample qSample
      = process_interview_response testModels testConfig respSample qSample :=
  pipeline_deterministic testModels testConfig respSample qSample respSample qSample rfl rfl

theorem dictGet_isSome_iff {α : Type} (d : List (String × α)) (k : String) :
    (dictGet d k).isSome = true ↔ k ∈ d.map Prod.fst := by
  unfold dictGet
  simp [List.find?_isSome, List.mem_map]

theorem dictGet_eq_some_of_mem {α : Type} {d : List (String × α)} {k : String}
    (h : k ∈ d.map Prod.fst) : ∃ v, dictGet d k = some v := by
  have hs := (dictGet_isSome_iff d k).mpr h
  exact Option.isSome_iff_exists.mp hs

theorem mem_of_dictGet_some {α : Type} {d : List (String × α)} {k : String} {v : α}
    (h : dictGet d k = some v) : k ∈ d.map Prod.fst := by
  apply (dictGet_isSome_iff d k).mp
  rw [h]
  rfl

theorem renderRubricItems_ok_of (colors : List (String × String)) :
    ∀ (items : List (String × Bool)) (i : Nat),
      i + items.length ≤ 3 →
      (∀ p ∈ items, p.1 ∈ colors.map Prod.fst) →
      ∃ out, renderRubricItems colors i items = Except.ok out := by
  intro items
  induction items with
  | nil => exact fun i _ _ => ⟨[], rfl⟩
  | cons p tl ih =>
    rcases p with ⟨cr, sc⟩
    intro i hlen hmem
    have hcr : cr ∈ colors.map Prod.fst := hmem (cr, sc) (List.mem_cons_self _ _)
    obtain ⟨cc, hcc⟩ := dictGet_eq_some_of_mem hcr
    have hlen2 : (i + 1) + tl.length ≤ 3 := by
      simp only [List.length_cons] at hlen
      omega
    obtain ⟨out, hout⟩ := ih (i + 1) hlen2 (fun q hq => hmem q (List.mem_cons_of_mem _ hq))
    have hi : i < 3 := by
      simp only [List.length_cons] at hlen
      omega
    refine ⟨(cr, if sc then "Pass" else "Fail", cc) :: out, ?_⟩
    simp [renderRubricItems, hi, hcc, hout, Except.map]

theorem renderRubricItems_ok_inv (colors : List (String × String)) :
    ∀ (items : List (String × Bool)) (i : Nat) (out : List (String × String × String)),
      renderRubricItems colors i items = Except.ok out →
      (∀ p ∈ items, p.1 ∈ colors.map Prod.fst)
        ∧ (items.length = 0 ∨ i + items.length ≤ 3) := by
  intro items
  induction items with
  | nil =>
    intro i out _
    refine ⟨?_, Or.inl rfl⟩
    intro p hp
    cases hp
  | cons p tl ih =>
    rcases p with ⟨cr, sc⟩
    intro i out h
    have hi : i < 3 := by
      by_contra hi
      simp [renderRubricItems, hi] at h
    have hsome : ∃ cc, dictGet colors cr = some cc := by
      cases hcc : dictGet colors cr with
      | none => simp [renderRubricItems, hi, hcc] at h
      | some cc => exact ⟨cc, rfl⟩
    obtain ⟨cc, hcc⟩ := hsome
    have hrec : ∃ out2, renderRubricItems colors (i + 1) tl = Except.ok out2 := by
      cases hr : renderRubricItems colors (i + 1) tl with
      | error e => simp [renderRubricItems, hi, hcc, hr, Except.map] at h
      | ok o => exact ⟨o, rfl⟩
    obtain ⟨out2, hout2⟩ := hrec
    obtain ⟨hmem, hlen⟩ := ih (i + 1) out2 hout2
    refine ⟨?_, Or.inr ?_⟩
    · intro q hq
      rcases List.mem_cons.mp hq with rfl | hq2
      · exact mem_of_dictGet_some hcc
      · exact hmem q hq2
    · rcases hlen with h0 | hle
      · simp only [List.length_cons, h0]
        omega
      · simp only [List.length_cons]
        omega

/-- C10: display_results assumes the rubric dict maps exactly the three
keys relevance, clarity and tone; under that precondition the rubric
rendering succeeds (no out-of-range column index, every colour-class
lookup defined), while any extra, missing or differently named rubric
key makes it raise a KeyError or an IndexError. -/
theorem rubric_rendering_iff_exact_keys (rubric : List (String × Bool)) :
    (∃ out, display_rubric rubric = Except.ok out)
      ↔ (rubric.map Prod.fst).Perm ["relevance", "clarity", "tone"] := by
  constructor
  · rintro ⟨out, hout⟩
    unfold display_rubric at hout
    cases hrv : dictGet rubric "relevance" with
    | none => rw [hrv] at hout; simp at hout
    | some rv =>
    cases hcl : dictGet rubric "clarity" with
    | none => rw [hrv, hcl] at hout; simp at hout
    | some cl =>
    cases htn : dictGet rubric "tone" with
    | none => rw [hrv, hcl, htn] at hout; simp at hout
    | some tn =>
      rw [hrv, hcl, htn] at hout
      simp only [] at hout
      obtain ⟨hmem, hlen⟩ := renderRubricItems_ok_inv (rubricColors rv cl tn) rubric 0 out hout
      have h1 : "relevance" ∈ rubric.map Prod.fst := mem_of_dictGet_some hrv
      have h2 : "clarity" ∈ rubric.map Prod.fst := mem_of_dictGet_some hcl
      have h3 : "tone" ∈ rubric.map Prod.fst := mem_of_dictGet_some htn
      have hsub : (["relevance", "clarity", "tone"] : List String) ⊆ rubric.map Prod.fst := by
        intro x hx
        rcases List.mem_cons.mp hx with rfl | hx
        · exact h1
        rcases List.mem_cons.mp hx with rfl | hx
        · exact h2
        rcases List.mem_cons.mp hx with rfl | hx
        · exact h3
        cases hx
      have hnd : (["relevance", "clarity", "tone"] : List String).Nodup := by decide
      have hsp := List.subperm_of_subset hnd hsub
      have hlen3 : (rubric.map Prod.fst).length ≤ 3 := by
        rcases hlen with h0 | hle
        · rcases List.length_eq_zero.mp h0 with rfl
          cases h1
        · simpa using hle
      exact (hsp.perm_of_length_le (by simpa using hlen3)).symm
  · intro hperm
    have h1 : "relevance" ∈ rubric.map Prod.fst := hperm.symm.subset (by simp)
    have h2 : "clarity" ∈ rubric.map Prod.fst := hperm.symm.subset (by simp)
    have h3 : "tone" ∈ rubric.map Prod.fst := hperm.symm.subset (by simp)
    obtain ⟨rv, hrv⟩ := dictGet_eq_some_of_mem h1
    obtain ⟨cl, hcl⟩ := dictGet_eq_some_of_mem h2
    obtain ⟨tn, htn⟩ := dictGet_eq_some_of_mem h3
    have hlen : rubric.length = 3 := by
      have hl := hperm.length_eq
      simpa using hl
    have hmem : ∀ p ∈ rubric, p.1 ∈ (rubricColors rv cl tn).map Prod.fst := by
      intro p hp
      have hp1 : p.1 ∈ rubric.map Prod.fst := List.mem_map_of_mem _ hp
      have hp2 := hperm.subset hp1
      simpa [rubricColors] using hp2
    obtain ⟨out, hout⟩ := renderRubricItems_ok_of (rubricColors rv cl tn) rubric 0
      (by omega) hmem
    refine ⟨out, ?_⟩
    unfold display_rubric
    rw [hrv, hcl, htn]
    exact hout

end InterviewCoach
